import Mathlib

/-!
Verification development for the payment portal backend
(`src/controllers/user.controller.ts`, routed by `src/routes/user.routes.ts`).

The controllers are embedded as pure Lean functions over an explicit database
state.  The database (PostgreSQL) is modelled sequentially: each request is one
atomic step from committed state to committed state, which matches the
transactional `BEGIN`/`COMMIT` structure of the source.  Monetary values that
have passed through JavaScript `parseFloat` are modelled by `JSNum`, which is
either a rational number or `nan` (the result of parsing a malformed string);
comparisons involving `nan` are false, and arithmetic with `nan` yields `nan`,
matching both JavaScript number semantics and PostgreSQL `numeric` `NaN`
propagation.
-/

namespace PaymentPortal

/-- A JavaScript number as produced by `parseFloat`: either a real value
(modelled exactly as a rational) or `NaN` for malformed input. -/
inductive JSNum where
  | nan : JSNum
  | num : ℚ → JSNum
deriving DecidableEq

/-- JavaScript `<=` on numbers: any comparison involving `NaN` is false. -/
def JSNum.leb : JSNum → JSNum → Bool
  | JSNum.num a, JSNum.num b => decide (a ≤ b)
  | _, _ => false

/-- JavaScript `<` on numbers: any comparison involving `NaN` is false. -/
def JSNum.ltb : JSNum → JSNum → Bool
  | JSNum.num a, JSNum.num b => decide (a < b)
  | _, _ => false

/-- Addition; `NaN` propagates (JavaScript and PostgreSQL `numeric` agree).
Written with `mkRat` so that the kernel can evaluate it on concrete inputs;
`JSNum.add_num` identifies it with rational addition. -/
def JSNum.add : JSNum → JSNum → JSNum
  | JSNum.num a, JSNum.num b =>
      JSNum.num (mkRat (a.num * b.den + b.num * a.den) (a.den * b.den))
  | _, _ => JSNum.nan

/-- Subtraction; `NaN` propagates. -/
def JSNum.sub : JSNum → JSNum → JSNum
  | JSNum.num a, JSNum.num b =>
      JSNum.num (mkRat (a.num * b.den - b.num * a.den) (a.den * b.den))
  | _, _ => JSNum.nan

/-- A `JSNum` is a real, non-negative value.  `NaN` does not count. -/
def JSNum.nonneg : JSNum → Bool
  | JSNum.num q => decide (0 ≤ q)
  | JSNum.nan => false

abbrev UserId := Nat

/-- Transaction record type column: `'CREDIT'` or `'DEBIT'`. -/
inductive TxType where
  | CREDIT : TxType
  | DEBIT : TxType
deriving DecidableEq

/-- A row of the `transactions` table as written by the controllers.
`created_at` is the transaction timestamp (`CURRENT_TIMESTAMP`, one value per
atomic unit), modelled as a natural-number clock.  The unused
`last_updated_at` column is omitted (always set to the same timestamp). -/
structure TxRecord where
  transaction_id : Nat
  user_id : UserId
  type : TxType
  amount : JSNum
  description : String
  status : String
  counterparty_id : Option UserId
  created_at : Nat
deriving DecidableEq

/-- A row of the `users` table.  Credential fields (`password`,
`date_of_birth`, `last_name`) are omitted: no money-moving path reads them. -/
structure User where
  user_id : UserId
  first_name : String
  email_id : String
  mobile_number : String
deriving DecidableEq

/-- The committed database state: the `users` table, the `account_balances`
table (one `(user_id, amount)` row per entry; `last_updated_at` omitted), the
append-only `transactions` table, the serial-key counters, and a clock
supplying `CURRENT_TIMESTAMP`. -/
structure DBState where
  users : List User
  balances : List (UserId × JSNum)
  transactions : List TxRecord
  nextUserId : UserId
  nextTxId : Nat
  now : Nat
deriving DecidableEq

/-- HTTP responses of the money-moving endpoints, by status and error class:
`ok` is 200 with a `new_balance` payload, `created` is 201 (registration),
`conflict` is 409, `invalidRequest` is 400 (validation), `selfTransfer` is the
distinct 400 `Cannot send money to yourself.`, `insufficientFunds` is 402,
`recipientNotFound` is 404, `serverError` is 500. -/
inductive Resp where
  | ok : JSNum → Resp
  | created : UserId → Resp
  | conflict : Resp
  | invalidRequest : Resp
  | selfTransfer : Resp
  | insufficientFunds : Resp
  | recipientNotFound : Resp
  | serverError : Resp
deriving DecidableEq

/-- `SELECT amount FROM account_balances WHERE user_id = $1` on a table:
the first matching row, if any. -/
def blookup (bs : List (UserId × JSNum)) (u : UserId) : Option JSNum :=
  (bs.find? (fun p => p.1 == u)).map (fun p => p.2)

/-- `UPDATE account_balances SET amount = f(amount) WHERE user_id = $2`:
rewrites every matching row, and is a no-op when no row matches, exactly like
the SQL `UPDATE`. -/
def updBalance (bs : List (UserId × JSNum)) (u : UserId) (f : JSNum → JSNum) :
    List (UserId × JSNum) :=
  bs.map (fun p => if p.1 == u then (p.1, f p.2) else p)

/-- Balance lookup on a state. -/
def lookupBalance (s : DBState) (u : UserId) : Option JSNum :=
  blookup s.balances u

/-- `SELECT ... FROM users WHERE user_id = $1` row existence. -/
def userExists (s : DBState) (u : UserId) : Bool :=
  s.users.any (fun w => w.user_id == u)

/-- Builds one `transactions` row with `status = COMPLETED`, as every insert
in the source does. -/
def mkTx (id : Nat) (u : UserId) (ty : TxType) (a : JSNum) (d : String)
    (cp : Option UserId) (t : Nat) : TxRecord :=
  ⟨id, u, ty, a, d, "COMPLETED", cp, t⟩

/-- `findRecipient` (user.controller.ts lines 70-79): classifies the
identifier as email-shaped when it contains `@`, otherwise phone-shaped, and
returns the first `users` row matching that column. -/
def findRecipient (s : DBState) (identifier : String) : Option User :=
  if identifier.data.contains '@' then
    s.users.find? (fun w => w.email_id == identifier)
  else
    s.users.find? (fun w => w.mobile_number == identifier)

/-- `registerUser` (lines 81-143): rejects a duplicate email or mobile with
409, otherwise inserts a `users` row under the next serial id together with an
`account_balances` row of `0.00`, in one transaction. -/
def registerUser (s : DBState) (first_name email_id mobile_number : String) :
    Resp × DBState :=
  if s.users.any (fun w => w.email_id == email_id || w.mobile_number == mobile_number) then
    (Resp.conflict, s)
  else
    let uid := s.nextUserId
    (Resp.created uid,
      { s with
        users := s.users ++ [⟨uid, first_name, email_id, mobile_number⟩],
        balances := s.balances ++ [(uid, JSNum.num 0)],
        nextUserId := uid + 1 })

/-- `addFunds` (lines 194-243).  Validation: `!user_id || depositAmount <= 0`
(note: a `NaN` amount passes, since `NaN <= 0` is false).  Then, in one
transaction, `UPDATE account_balances ... RETURNING amount` followed by an
insert of a CREDIT record, and the response reads the returned row.  When the
user has no balance row, the `UPDATE` matches nothing, the insert still runs
and the unit commits, after which reading `rows[0].amount` throws and the
handler answers 500 — so the stray CREDIT record stays committed.  Foreign-key
behaviour of `transactions.user_id` is modelled from the spec data model
(every ledger line is owned by a `users` row): when the user row itself is
missing, the insert aborts the unit and nothing is committed. -/
def addFunds (s : DBState) (user_id : UserId) (amount : JSNum) : Resp × DBState :=
  if user_id == 0 || JSNum.leb amount (JSNum.num 0) then
    (Resp.invalidRequest, s)
  else
    let bs := updBalance s.balances user_id (fun b => JSNum.add b amount)
    match blookup bs user_id with
    | some newBal =>
        let tx := mkTx s.nextTxId user_id TxType.CREDIT amount
          "Wallet Deposit (External)" none s.now
        (Resp.ok newBal,
          { s with balances := bs, transactions := s.transactions ++ [tx],
                   nextTxId := s.nextTxId + 1 })
    | none =>
        if userExists s user_id then
          let tx := mkTx s.nextTxId user_id TxType.CREDIT amount
            "Wallet Deposit (External)" none s.now
          (Resp.serverError,
            { s with transactions := s.transactions ++ [tx],
                     nextTxId := s.nextTxId + 1 })
        else
          (Resp.serverError, s)

/-- `payBill` (lines 535-595).  Validation:
`!user_id || !merchant_id || paymentAmount <= 0`.  Then the balance row is
read `FOR UPDATE` (through the pool, outside the open transaction — the
mixed-connection gap noted in the spec, invisible in this sequential model);
a missing row and an insufficient balance are both answered with 402.
Otherwise a DEBIT record is inserted and the unit commits.  The source never
decrements the balance: the post-commit `SELECT amount` re-reads the unchanged
row and returns it as `new_balance`. -/
def payBill (s : DBState) (user_id : UserId) (merchant_id : String)
    (amount : JSNum) (descr : String) : Resp × DBState :=
  if user_id == 0 || merchant_id == "" || JSNum.leb amount (JSNum.num 0) then
    (Resp.invalidRequest, s)
  else
    match lookupBalance s user_id with
    | none => (Resp.insufficientFunds, s)
    | some bal =>
        if JSNum.ltb bal amount then
          (Resp.insufficientFunds, s)
        else
          let tx := mkTx s.nextTxId user_id TxType.DEBIT amount descr none s.now
          (Resp.ok bal,
            { s with transactions := s.transactions ++ [tx],
                     nextTxId := s.nextTxId + 1 })

/-- `sendMoney` (lines 597-709).  Validation:
`!sender_id || !recipient_identifier || transferAmount <= 0`; then the
recipient is resolved (404 when absent), a self-transfer is rejected with the
distinct 400, the sender balance row is read `FOR UPDATE` (missing row and
insufficient balance both answer 402), the sender is debited and the
recipient credited by `UPDATE`, a DEBIT record on the sender referencing the
recipient and a CREDIT record on the recipient referencing the sender are
inserted (the sender first name is read on the way; a missing sender row
throws before commit, rolling the unit back to `s`), the unit commits, and
the response re-reads the sender balance row. -/
def sendMoney (s : DBState) (sender_id : UserId) (recipient_identifier : String)
    (amount : JSNum) : Resp × DBState :=
  if sender_id == 0 || recipient_identifier == "" || JSNum.leb amount (JSNum.num 0) then
    (Resp.invalidRequest, s)
  else
    match findRecipient s recipient_identifier with
    | none => (Resp.recipientNotFound, s)
    | some recip =>
        if sender_id == recip.user_id then
          (Resp.selfTransfer, s)
        else
          match lookupBalance s sender_id with
          | none => (Resp.insufficientFunds, s)
          | some bal =>
              if JSNum.ltb bal amount then
                (Resp.insufficientFunds, s)
              else
                let bs1 := updBalance s.balances sender_id (fun b => JSNum.sub b amount)
                let bs2 := updBalance bs1 recip.user_id (fun b => JSNum.add b amount)
                match s.users.find? (fun w => w.user_id == sender_id) with
                | none => (Resp.serverError, s)
                | some sender =>
                    let d := mkTx s.nextTxId sender_id TxType.DEBIT amount
                      ("Transfer to " ++ recip.first_name ++ " (P2P)")
                      (some recip.user_id) s.now
                    let c := mkTx (s.nextTxId + 1) recip.user_id TxType.CREDIT amount
                      ("Transfer from " ++ sender.first_name ++ " (P2P)")
                      (some sender_id) s.now
                    let s2 : DBState :=
                      { s with balances := bs2,
                               transactions := s.transactions ++ [d, c],
                               nextTxId := s.nextTxId + 2 }
                    match blookup bs2 sender_id with
                    | some nb => (Resp.ok nb, s2)
                    | none => (Resp.serverError, s2)

/-- Ordering used by `getUserTransactions`: `created_at DESC`. -/
def txLe (a b : TxRecord) : Prop :=
  b.created_at ≤ a.created_at

instance : DecidableRel txLe :=
  fun a b => Nat.decLe b.created_at a.created_at

instance : IsTotal TxRecord txLe :=
  ⟨fun a b => le_total b.created_at a.created_at⟩

instance : IsTrans TxRecord txLe :=
  ⟨fun _ _ _ hab hbc => le_trans hbc hab⟩

/-- `getUserTransactions` (lines 488-533): after validating `user_id`, runs
`SELECT ... FROM transactions WHERE user_id = $1 ORDER BY created_at DESC`.
The `ORDER BY` names only `created_at`; the model returns the matching rows
in a stable descending order (rows with equal `created_at` keep table order),
reflecting that the query imposes no further tie-break. -/
def getUserTransactions (s : DBState) (user_id : UserId) :
    Option (List TxRecord) :=
  if user_id == 0 then none
  else
    some (List.insertionSort txLe
      (s.transactions.filter (fun t => t.user_id == user_id)))

/-- Net ledger position of one user: the sum of CREDIT amounts minus the sum
of DEBIT amounts over that user's transaction records. -/
def ledgerNet (s : DBState) (u : UserId) : JSNum :=
  (s.transactions.filter (fun t => t.user_id == u)).foldl
    (fun acc t =>
      match t.type with
      | TxType.CREDIT => JSNum.add acc t.amount
      | TxType.DEBIT => JSNum.sub acc t.amount)
    (JSNum.num 0)

/-- Requests of the committed-operation state machine.  Amounts carried by
operations are the values `parseFloat` produced from the request body: a real
number for a well-formed decimal, `nan` for a malformed one — both of which
the handlers accept past validation. -/
inductive Op where
  | register : String → String → String → Op
  | deposit : UserId → JSNum → Op
  | bill : UserId → String → JSNum → String → Op
  | transfer : UserId → String → JSNum → Op

/-- The amount is a real number: the request body held a well-formed decimal,
so `parseFloat` did not yield `NaN`. -/
def JSNum.isReal : JSNum → Bool
  | JSNum.num _ => true
  | JSNum.nan => false

/-- A request whose amount, if it carries one, parsed to a real number. -/
def Op.wellFormed : Op → Bool
  | Op.register _ _ _ => true
  | Op.deposit _ a => a.isReal
  | Op.bill _ _ a _ => a.isReal
  | Op.transfer _ _ a => a.isReal

/-- The state reached by one request, discarding the HTTP response. -/
def applyOp (s : DBState) : Op → DBState
  | Op.register f e m => (registerUser s f e m).2
  | Op.deposit u a => (addFunds s u a).2
  | Op.bill u m a d => (payBill s u m a d).2
  | Op.transfer u r a => (sendMoney s u r a).2

/-- One committed request followed by a clock advance. -/
def step (s : DBState) (op : Op) : DBState :=
  let s1 := applyOp s op
  { s1 with now := s1.now + 1 }

/-- The empty database: no users, serial counters at 1. -/
def initState : DBState :=
  ⟨[], [], [], 1, 1, 0⟩

/-- The committed state after a sequence of requests against a fresh store. -/
def run (ops : List Op) : DBState :=
  ops.foldl step initState

/-- The balance-store invariant maintained by the committed-operation state
machine: every balance is a real non-negative value, every balance row key was
issued by the serial counter, and rows agree on their key (the key is unique
up to the stored value). -/
structure BalInv (s : DBState) : Prop where
  nonneg : ∀ p ∈ s.balances, p.2.nonneg = true
  below : ∀ p ∈ s.balances, p.1 < s.nextUserId
  uniq : ∀ p ∈ s.balances, ∀ q ∈ s.balances, p.1 = q.1 → p.2 = q.2

/-- A store with one registered user (id 1) holding balance 100. -/
def stateA : DBState :=
  run [Op.register "Alice" "a@x.com" "111", Op.deposit 1 (JSNum.num 100)]

/-- A store with one registered user (id 1) holding balance 50. -/
def stateB : DBState :=
  run [Op.register "Alice" "a@x.com" "111", Op.deposit 1 (JSNum.num 50)]

/-- A store with two registered users: id 1 with balance 200 and id 2 with
balance 10 (the peer-to-peer scenario of the spec). -/
def stateP2P : DBState :=
  run [Op.register "Alice" "a@x.com" "111", Op.register "Bob" "b@x.com" "222",
    Op.deposit 1 (JSNum.num 200), Op.deposit 2 (JSNum.num 10)]

/-- A broken store exhibiting the data-integrity bug of the spec: two `users`
rows but no `account_balances` row for either. -/
def stateNoRow : DBState :=
  ⟨[⟨1, "Alice", "a@x.com", "111"⟩, ⟨2, "Bob", "b@x.com", "222"⟩], [], [], 3, 1, 0⟩

/-- The deposit / bill-payment sequence violating reconciliation: register,
deposit 100, then pay a 40 bill. -/
def opsRecon : List Op :=
  [Op.register "Alice" "a@x.com" "111", Op.deposit 1 (JSNum.num 100),
    Op.bill 1 "M" (JSNum.num 40) "electricity"]

/-- First of two ledger records sharing one `created_at` timestamp. -/
def txA : TxRecord :=
  mkTx 1 1 TxType.CREDIT (JSNum.num 5) "first deposit" none 5

/-- Second record with the same `created_at` but a higher `transaction_id`. -/
def txB : TxRecord :=
  mkTx 2 1 TxType.CREDIT (JSNum.num 7) "second deposit" none 5

/-- A store whose ledger holds `txA` then `txB` for user 1: two committed
records with equal `created_at` timestamps, in insertion order. -/
def stateTie : DBState :=
  ⟨[⟨1, "Alice", "a@x.com", "111"⟩], [(1, JSNum.num 12)], [txA, txB], 2, 3, 6⟩

/-- Fuel-driven floor of the base-2 logarithm of a natural number. -/
def log2fuel : Nat → Nat → Nat
  | 0, _ => 0
  | fuel + 1, n => if 2 ≤ n then log2fuel fuel (n / 2) + 1 else 0

/-- Floor of the base-2 logarithm (`nlog2 0 = 0`). -/
def nlog2 (n : Nat) : Nat :=
  log2fuel n n

/-- `2 ^ k` as a rational, for an integer exponent `k`. -/
def pow2q (k : ℤ) : ℚ :=
  if 0 ≤ k then mkRat (2 ^ k.toNat) 1 else mkRat 1 (2 ^ (-k).toNat)

/-- Multiplies a rational by `2 ^ k`, written on numerator and denominator so
that the kernel can evaluate it. -/
def qmul2p (q : ℚ) (k : ℤ) : ℚ :=
  if 0 ≤ k then mkRat (q.num * 2 ^ k.toNat) q.den
  else mkRat q.num (q.den * 2 ^ (-k).toNat)

/-- The binade of a positive rational: the integer `e` with `2^e ≤ q < 2^(e+1)`,
located from the bit lengths of numerator and denominator and corrected. -/
def qexp (q : ℚ) : ℤ :=
  let e0 : ℤ := (nlog2 q.num.toNat : ℤ) - (nlog2 q.den : ℤ)
  if pow2q (e0 + 1) ≤ q then e0 + 1
  else if pow2q e0 ≤ q then e0
  else e0 - 1

/-- Rounds a rational to the nearest integer, ties to even (the IEEE-754
default rounding). -/
def rte (x : ℚ) : ℤ :=
  let f := Int.fdiv x.num x.den
  let r := mkRat (x.num - f * (x.den : ℤ)) x.den
  if r < mkRat 1 2 then f
  else if mkRat 1 2 < r then f + 1
  else if f % 2 = 0 then f else f + 1

/-- Rounds a non-negative rational to the nearest IEEE-754 binary64 value
(53-bit significand, round to nearest, ties to even), for values in the
normal finite range — which covers every monetary amount.  This is the value
JavaScript arithmetic and comparisons actually operate on. -/
def roundB64 (q : ℚ) : ℚ :=
  if q ≤ 0 then 0
  else
    let e := qexp q
    let m := rte (qmul2p q (52 - e))
    qmul2p (mkRat m 1) (e - 52)

/-- Model of `parseFloat(amount)` (user.controller.ts lines 196, 537, 599)
applied to a well-formed decimal string whose exact value is `q`: JavaScript
parses the decimal into an IEEE-754 binary64 double, so the number the
controllers go on to compare and log is `roundB64 q`, not `q` itself. -/
def parseAmount (q : ℚ) : JSNum :=
  JSNum.num (roundB64 q)

/-! ### Lemmas -/

theorem JSNum.add_num (a b : ℚ) :
    JSNum.add (JSNum.num a) (JSNum.num b) = JSNum.num (a + b) := by
  simp only [JSNum.add, Rat.add_def']

theorem JSNum.sub_num (a b : ℚ) :
    JSNum.sub (JSNum.num a) (JSNum.num b) = JSNum.num (a - b) := by
  simp only [JSNum.sub, Rat.sub_def']

theorem blookup_updBalance_self (bs : List (UserId × JSNum)) (u : UserId)
    (f : JSNum → JSNum) :
    blookup (updBalance bs u f) u = (blookup bs u).map f := by
  induction bs with
  | nil => rfl
  | cons p bs ih =>
      by_cases h : (p.1 == u) = true
      · simp only [blookup, updBalance, List.map_cons, List.find?, h, if_true,
          Option.map_some]
        rfl
      · simp only [blookup, updBalance, List.map_cons, List.find?, h, if_false,
          Bool.false_eq_true] at ih ⊢
        exact ih

theorem blookup_updBalance_ne (bs : List (UserId × JSNum)) (u v : UserId)
    (f : JSNum → JSNum) (hvu : v ≠ u) :
    blookup (updBalance bs u f) v = blookup bs v := by
  induction bs with
  | nil => rfl
  | cons p bs ih =>
      by_cases h : (p.1 == u) = true
      · have hv : (p.1 == v) = false := by
          rw [beq_iff_eq] at h
          exact beq_eq_false_iff_ne.mpr (fun hpv => hvu ((h ▸ hpv : u = v)).symm)
        simp only [blookup, updBalance, List.map_cons, List.find?, h, if_true, hv,
          Bool.false_eq_true] at ih ⊢
        exact ih
      · by_cases hv : (p.1 == v) = true
        · simp only [blookup, updBalance, List.map_cons, List.find?, h, if_false,
            hv, Option.map_some, Bool.false_eq_true]
        · simp only [blookup, updBalance, List.map_cons, List.find?, h, if_false,
            hv, Bool.false_eq_true] at ih ⊢
          exact ih

theorem updBalance_of_none (bs : List (UserId × JSNum)) (u : UserId)
    (f : JSNum → JSNum) (h : blookup bs u = none) :
    updBalance bs u f = bs := by
  induction bs with
  | nil => rfl
  | cons p bs ih =>
      by_cases hp : (p.1 == u) = true
      · exfalso
        simp [blookup, List.find?, hp] at h
      · simp only [blookup, List.find?, hp, Bool.false_eq_true] at h ih
        simp only [updBalance, List.map_cons, hp, if_false, Bool.false_eq_true]
        rw [show List.map (fun p => if (p.1 == u) = true then (p.1, f p.2) else p) bs
            = updBalance bs u f from rfl, ih h]

theorem blookup_mem (bs : List (UserId × JSNum)) (u : UserId) (v : JSNum)
    (h : blookup bs u = some v) :
    ∃ p, p ∈ bs ∧ p.1 = u ∧ p.2 = v := by
  simp only [blookup] at h
  obtain ⟨p, hp, hv⟩ := Option.map_eq_some.mp h
  exact ⟨p, List.mem_of_find?_eq_some hp,
    by simpa using List.find?_some hp, hv⟩

theorem blookup_eq_of_mem (bs : List (UserId × JSNum)) (u : UserId)
    (p : UserId × JSNum)
    (huniq : ∀ x ∈ bs, ∀ y ∈ bs, x.1 = y.1 → x.2 = y.2)
    (hp : p ∈ bs) (hk : p.1 = u) :
    blookup bs u = some p.2 := by
  have hsome : (bs.find? (fun x => x.1 == u)).isSome := by
    rw [List.find?_isSome]
    exact ⟨p, hp, by simp [hk]⟩
  obtain ⟨q, hq⟩ := Option.isSome_iff_exists.mp hsome
  have hqmem := List.mem_of_find?_eq_some hq
  have hqk : q.1 = u := by simpa using List.find?_some hq
  have : p.2 = q.2 := huniq p hp q hqmem (hk.trans hqk.symm)
  simp [blookup, hq, this]

/-! ### Claim theorems -/

/-- Claim C1 (code bug): on a user with balance 100, a valid bill payment of
40 answers 200 with `new_balance` 100, leaves the balance at 100, and still
appends a ledger record — the source never decrements the balance, although
the spec requires the new, post-decrement balance to be 60. -/
theorem payBill_leaves_balance_unchanged :
    (payBill stateA 1 "M" (JSNum.num 40) "electricity").1 = Resp.ok (JSNum.num 100) ∧
    lookupBalance (payBill stateA 1 "M" (JSNum.num 40) "electricity").2 1 =
      some (JSNum.num 100) ∧
    (payBill stateA 1 "M" (JSNum.num 40) "electricity").2.transactions.length =
      stateA.transactions.length + 1 := by
  decide

/-- Claim C2 (code bug): after register, deposit 100, pay bill 40, the
balance is 100 while the ledger net (credits minus debits) is 60, so the
reconciliation invariant fails on the code. -/
theorem reconciliation_invariant_fails :
    lookupBalance (run opsRecon) 1 = some (JSNum.num 100) ∧
    ledgerNet (run opsRecon) 1 = JSNum.num 60 ∧
    lookupBalance (run opsRecon) 1 ≠ some (ledgerNet (run opsRecon) 1) := by
  decide

/-- Claim C4, counterexample: a deposit whose amount is malformed (parses to
`NaN`) is not rejected — `NaN <= 0` is false — so the operation succeeds with
a `NaN` balance, corrupts the stored balance, and appends a ledger record. -/
theorem nan_deposit_not_rejected :
    (addFunds stateA 1 JSNum.nan).1 = Resp.ok JSNum.nan ∧
    lookupBalance (addFunds stateA 1 JSNum.nan).2 1 = some JSNum.nan ∧
    (addFunds stateA 1 JSNum.nan).2.transactions.length =
      stateA.transactions.length + 1 := by
  decide

/-- Claim C4 (amended): a deposit or transfer whose amount parses to a number
that is zero or negative is rejected with the 400 validation error before any
lock, and the state is untouched. -/
theorem amount_nonpositive_rejected (s : DBState) (u : UserId) (rid : String)
    (q : ℚ) (hq : q ≤ 0) :
    addFunds s u (JSNum.num q) = (Resp.invalidRequest, s) ∧
    sendMoney s u rid (JSNum.num q) = (Resp.invalidRequest, s) := by
  have h1 : JSNum.leb (JSNum.num q) (JSNum.num 0) = true := by
    simp [JSNum.leb, hq]
  constructor
  · simp only [addFunds, h1, Bool.or_true, if_true]
  · simp only [sendMoney, h1, Bool.or_true, if_true]

/-- Witness for `amount_nonpositive_rejected` at a concrete input. -/
theorem amount_nonpositive_rejected_witness :
    addFunds initState 1 (JSNum.num (-1)) = (Resp.invalidRequest, initState) ∧
    sendMoney initState 1 "b@x.com" (JSNum.num (-1)) =
      (Resp.invalidRequest, initState) :=
  amount_nonpositive_rejected initState 1 "b@x.com" (-1) (by norm_num)

/-- Claim C5, counterexample: for a user with no balance row, no operation
answers 404 NotFound — bill payment and transfer answer 402 Insufficient
funds, and a deposit commits a stray CREDIT ledger record and answers 500. -/
theorem no_balance_row_never_notFound :
    (payBill stateNoRow 1 "M" (JSNum.num 10) "power").1 = Resp.insufficientFunds ∧
    (sendMoney stateNoRow 1 "b@x.com" (JSNum.num 10)).1 = Resp.insufficientFunds ∧
    (addFunds stateNoRow 1 (JSNum.num 10)).1 = Resp.serverError ∧
    (addFunds stateNoRow 1 (JSNum.num 10)).2.transactions.length = 1 := by
  decide

/-- Claim C5 (amended): for a user row that exists but has no balance row,
bill payment and transfer fail with 402 Insufficient funds and change
nothing, while a deposit answers 500 yet commits a stray CREDIT ledger record
without any balance change. -/
theorem no_balance_row_behaviour (s : DBState) (u : UserId)
    (m d rid : String) (a : JSNum) (r : User)
    (hu : u ≠ 0) (hm : m ≠ "") (hr : rid ≠ "")
    (ha : JSNum.leb a (JSNum.num 0) = false)
    (hrec : findRecipient s rid = some r) (hner : r.user_id ≠ u)
    (hex : userExists s u = true)
    (hb : lookupBalance s u = none) :
    payBill s u m a d = (Resp.insufficientFunds, s) ∧
    sendMoney s u rid a = (Resp.insufficientFunds, s) ∧
    addFunds s u a = (Resp.serverError,
      { s with
        transactions := s.transactions ++
          [mkTx s.nextTxId u TxType.CREDIT a "Wallet Deposit (External)" none s.now],
        nextTxId := s.nextTxId + 1 }) := by
  have hu' : (u == 0) = false := by simp [hu]
  have hm' : (m == "") = false := by simp [hm]
  have hr' : (rid == "") = false := by simp [hr]
  have hself : (u == r.user_id) = false :=
    beq_eq_false_iff_ne.mpr (fun h => hner h.symm)
  have hb' : blookup s.balances u = none := hb
  have hupd : ∀ f, updBalance s.balances u f = s.balances := fun f =>
    updBalance_of_none s.balances u f hb'
  refine ⟨?_, ?_, ?_⟩
  · simp only [payBill, hu', hm', ha, Bool.or_self, Bool.or_false,
      Bool.false_eq_true, if_false, lookupBalance, hb']
  · simp only [sendMoney, hu', hr', ha, Bool.or_self, Bool.or_false,
      Bool.false_eq_true, if_false, hrec, hself, lookupBalance, hb']
  · simp only [addFunds, hu', ha, Bool.or_self, Bool.or_false,
      Bool.false_eq_true, if_false, hupd, lookupBalance, hb', hex, if_true]

/-- Witness for `no_balance_row_behaviour` at a concrete input. -/
theorem no_balance_row_behaviour_witness :
    payBill stateNoRow 1 "M" (JSNum.num 5) "water" = (Resp.insufficientFunds, stateNoRow) ∧
    sendMoney stateNoRow 1 "b@x.com" (JSNum.num 5) = (Resp.insufficientFunds, stateNoRow) ∧
    addFunds stateNoRow 1 (JSNum.num 5) = (Resp.serverError,
      { stateNoRow with
        transactions := stateNoRow.transactions ++
          [mkTx stateNoRow.nextTxId 1 TxType.CREDIT (JSNum.num 5)
            "Wallet Deposit (External)" none stateNoRow.now],
        nextTxId := stateNoRow.nextTxId + 1 }) :=
  no_balance_row_behaviour stateNoRow 1 "M" "water" "b@x.com" (JSNum.num 5)
    ⟨2, "Bob", "b@x.com", "222"⟩ (by decide) (by decide) (by decide) (by decide)
    (by decide) (by decide) (by decide) (by decide)

/-- Claim C7: when the balance is strictly below the requested amount, a bill
payment fails with 402 Insufficient funds and the state — balance and ledger —
is exactly unchanged. -/
theorem payBill_insufficient_funds (s : DBState) (u : UserId) (m d : String)
    (a b : ℚ) (hu : u ≠ 0) (hm : m ≠ "") (ha : 0 < a)
    (hb : lookupBalance s u = some (JSNum.num b)) (hlt : b < a) :
    payBill s u m (JSNum.num a) d = (Resp.insufficientFunds, s) := by
  have hu' : (u == 0) = false := by simp [hu]
  have hm' : (m == "") = false := by simp [hm]
  have ha' : JSNum.leb (JSNum.num a) (JSNum.num 0) = false := by
    simp [JSNum.leb, not_le.mpr ha]
  have hlt' : JSNum.ltb (JSNum.num b) (JSNum.num a) = true := by
    simp [JSNum.ltb, hlt]
  have hb' : blookup s.balances u = some (JSNum.num b) := hb
  simp only [payBill, hu', hm', ha', Bool.or_self, Bool.or_false,
    Bool.false_eq_true, if_false, lookupBalance, hb', hlt', if_true]

/-- Witness for `payBill_insufficient_funds`: balance 50, bill of 100. -/
theorem payBill_insufficient_funds_witness :
    payBill stateB 1 "M" (JSNum.num 100) "power" = (Resp.insufficientFunds, stateB) :=
  payBill_insufficient_funds stateB 1 "M" "power" 100 50 (by decide) (by decide)
    (by norm_num) (by decide) (by norm_num)

/-- Claim C8: a transfer whose recipient identifier resolves to the sender is
rejected with the dedicated 400 response and the state is unchanged. -/
theorem sendMoney_self_rejected (s : DBState) (u : UserId) (rid : String)
    (q : ℚ) (r : User) (hu : u ≠ 0) (hr : rid ≠ "") (hq : 0 < q)
    (hrec : findRecipient s rid = some r) (heq : r.user_id = u) :
    sendMoney s u rid (JSNum.num q) = (Resp.selfTransfer, s) := by
  have hu' : (u == 0) = false := by simp [hu]
  have hr' : (rid == "") = false := by simp [hr]
  have hq' : JSNum.leb (JSNum.num q) (JSNum.num 0) = false := by
    simp [JSNum.leb, not_le.mpr hq]
  have hself : (u == r.user_id) = true := by simp [heq]
  simp only [sendMoney, hu', hr', hq', Bool.or_self, Bool.or_false,
    Bool.false_eq_true, if_false, hrec, hself, if_true]

/-- Witness for `sendMoney_self_rejected`: the user sends to their own email. -/
theorem sendMoney_self_rejected_witness :
    sendMoney stateA 1 "a@x.com" (JSNum.num 10) = (Resp.selfTransfer, stateA) :=
  sendMoney_self_rejected stateA 1 "a@x.com" 10 ⟨1, "Alice", "a@x.com", "111"⟩
    (by decide) (by decide) (by norm_num) (by decide) rfl

/-- Claim C6: a successful peer-to-peer transfer of amount `a` from sender
`u` (balance `b`) to a distinct resolved recipient `r` (balance `c`) answers
200 with the new sender balance `b - a`, leaves the sender balance at `b - a`
and the recipient balance at `c + a`, and appends exactly two ledger records:
a DEBIT on the sender with `counterparty_id` the recipient id, and a CREDIT
on the recipient with `counterparty_id` the sender id. -/
theorem sendMoney_transfer_ok (s : DBState) (u : UserId) (rid : String)
    (a b c : ℚ) (r sender : User)
    (hu : u ≠ 0) (hr : rid ≠ "") (ha : 0 < a)
    (hrec : findRecipient s rid = some r) (hner : r.user_id ≠ u)
    (hbal : lookupBalance s u = some (JSNum.num b)) (hfund : a ≤ b)
    (hcb : lookupBalance s r.user_id = some (JSNum.num c))
    (hsend : s.users.find? (fun w => w.user_id == u) = some sender) :
    (sendMoney s u rid (JSNum.num a)).1 = Resp.ok (JSNum.num (b - a)) ∧
    lookupBalance (sendMoney s u rid (JSNum.num a)).2 u = some (JSNum.num (b - a)) ∧
    lookupBalance (sendMoney s u rid (JSNum.num a)).2 r.user_id =
      some (JSNum.num (c + a)) ∧
    (sendMoney s u rid (JSNum.num a)).2.transactions = s.transactions ++
      [mkTx s.nextTxId u TxType.DEBIT (JSNum.num a)
        ("Transfer to " ++ r.first_name ++ " (P2P)") (some r.user_id) s.now,
       mkTx (s.nextTxId + 1) r.user_id TxType.CREDIT (JSNum.num a)
        ("Transfer from " ++ sender.first_name ++ " (P2P)") (some u) s.now] := by
  have hu' : (u == 0) = false := by simp [hu]
  have hr' : (rid == "") = false := by simp [hr]
  have ha' : JSNum.leb (JSNum.num a) (JSNum.num 0) = false := by
    simp [JSNum.leb, not_le.mpr ha]
  have hself : (u == r.user_id) = false :=
    beq_eq_false_iff_ne.mpr (fun h => hner h.symm)
  have hbal' : blookup s.balances u = some (JSNum.num b) := hbal
  have hcb' : blookup s.balances r.user_id = some (JSNum.num c) := hcb
  have hltb : JSNum.ltb (JSNum.num b) (JSNum.num a) = false := by
    simp [JSNum.ltb, not_lt.mpr hfund]
  have hsub : blookup (updBalance s.balances u (fun x => JSNum.sub x (JSNum.num a))) u
      = some (JSNum.num (b - a)) := by
    rw [blookup_updBalance_self, hbal']
    simp only [Option.map_some']
    rw [JSNum.sub_num]
  have hkeep : blookup (updBalance s.balances u (fun x => JSNum.sub x (JSNum.num a)))
      r.user_id = some (JSNum.num c) := by
    rw [blookup_updBalance_ne _ _ _ _ hner, hcb']
  have hb2s : blookup (updBalance
      (updBalance s.balances u (fun x => JSNum.sub x (JSNum.num a)))
      r.user_id (fun x => JSNum.add x (JSNum.num a))) u = some (JSNum.num (b - a)) := by
    rw [blookup_updBalance_ne _ _ _ _ (fun h => hner h.symm), hsub]
  have hb2r : blookup (updBalance
      (updBalance s.balances u (fun x => JSNum.sub x (JSNum.num a)))
      r.user_id (fun x => JSNum.add x (JSNum.num a))) r.user_id
      = some (JSNum.num (c + a)) := by
    rw [blookup_updBalance_self, hkeep]
    simp only [Option.map_some']
    rw [JSNum.add_num]
  simp only [sendMoney, hu', hr', ha', Bool.or_self, Bool.or_false,
    Bool.false_eq_true, if_false, hrec, hself, lookupBalance, hbal', hltb,
    hsend, hb2s, hb2r]
  exact ⟨trivial, trivial, trivial, trivial⟩

/-- Witness for `sendMoney_transfer_ok`: the spec scenario — sender with 200
transfers 75 to a recipient with 10. -/
theorem sendMoney_transfer_ok_witness :
    (sendMoney stateP2P 1 "b@x.com" (JSNum.num 75)).1 = Resp.ok (JSNum.num (200 - 75)) ∧
    lookupBalance (sendMoney stateP2P 1 "b@x.com" (JSNum.num 75)).2 1 =
      some (JSNum.num (200 - 75)) ∧
    lookupBalance (sendMoney stateP2P 1 "b@x.com" (JSNum.num 75)).2 2 =
      some (JSNum.num (10 + 75)) ∧
    (sendMoney stateP2P 1 "b@x.com" (JSNum.num 75)).2.transactions =
      stateP2P.transactions ++
      [mkTx stateP2P.nextTxId 1 TxType.DEBIT (JSNum.num 75)
        ("Transfer to " ++ "Bob" ++ " (P2P)") (some 2) stateP2P.now,
       mkTx (stateP2P.nextTxId + 1) 2 TxType.CREDIT (JSNum.num 75)
        ("Transfer from " ++ "Alice" ++ " (P2P)") (some 1) stateP2P.now] :=
  sendMoney_transfer_ok stateP2P 1 "b@x.com" 75 200 10
    ⟨2, "Bob", "b@x.com", "222"⟩ ⟨1, "Alice", "a@x.com", "111"⟩
    (by decide) (by decide) (by norm_num) (by decide) (by decide) (by decide)
    (by norm_num) (by decide) (by decide)

/-- Claim C9, counterexample: with two committed records for one user sharing
a `created_at` timestamp, the listing returns the record with the LOWER
`transaction_id` first — the query orders by `created_at` only, with no
`transaction_id` tie-break. -/
theorem equal_timestamp_lower_id_first :
    getUserTransactions stateTie 1 = some [txA, txB] ∧
    txA.created_at = txB.created_at ∧
    txA.transaction_id < txB.transaction_id := by
  decide

/-- Claim C9 (amended): the listing returns exactly the records of the user,
ordered by `created_at` descending; the relative order of records with equal
timestamps is not specified by the query (the model keeps table order). -/
theorem getUserTransactions_ordered (s : DBState) (u : UserId) (hu : u ≠ 0) :
    ∃ l, getUserTransactions s u = some l ∧
      List.Perm l (s.transactions.filter (fun t => t.user_id == u)) ∧
      List.Sorted txLe l := by
  have hu' : (u == 0) = false := by simp [hu]
  exact ⟨_, by simp only [getUserTransactions, hu', Bool.false_eq_true, if_false],
    List.perm_insertionSort _ _, List.sorted_insertionSort _ _⟩

/-- Witness for `getUserTransactions_ordered` at a concrete store. -/
theorem getUserTransactions_ordered_witness :
    ∃ l, getUserTransactions stateTie 1 = some l ∧
      List.Perm l (stateTie.transactions.filter (fun t => t.user_id == 1)) ∧
      List.Sorted txLe l :=
  getUserTransactions_ordered stateTie 1 (by decide)

/-- Claim C10, counterexample: the processed value of the decimal amount 0.1
is not the exact decimal — `parseFloat` yields the nearest binary64 double. -/
theorem parseAmount_not_exact :
    parseAmount (mkRat 1 10) ≠ JSNum.num (mkRat 1 10) := by
  decide

/-- Claim C10 (amended): request amounts are processed as IEEE-754 binary64
values: the amount 0.1 is parsed to the dyadic 3602879701896397/2^55, which
differs from the exact decimal, and that dyadic is the value the deposit
operation goes on to credit and report. -/
theorem parseAmount_binary64 :
    parseAmount (mkRat 1 10) = JSNum.num (mkRat 3602879701896397 36028797018963968) ∧
    mkRat 3602879701896397 36028797018963968 ≠ mkRat 1 10 ∧
    (addFunds (run [Op.register "Alice" "a@x.com" "111"]) 1
        (parseAmount (mkRat 1 10))).1 =
      Resp.ok (JSNum.num (mkRat 3602879701896397 36028797018963968)) := by
  decide

theorem nonneg_add_amount (a : ℚ) (ha : 0 ≤ a) :
    ∀ v : JSNum, v.nonneg = true → (JSNum.add v (JSNum.num a)).nonneg = true := by
  intro v hv
  cases v with
  | nan => simp [JSNum.nonneg] at hv
  | num q =>
      rw [JSNum.add_num]
      simp only [JSNum.nonneg, decide_eq_true_eq] at hv ⊢
      exact add_nonneg hv ha

theorem nonneg_updBalance (bs : List (UserId × JSNum)) (u : UserId)
    (f : JSNum → JSNum)
    (hbs : ∀ p ∈ bs, (p.2 : JSNum).nonneg = true)
    (hf : ∀ v : JSNum, v.nonneg = true → (f v).nonneg = true) :
    ∀ p ∈ updBalance bs u f, p.2.nonneg = true := by
  intro p hp
  simp only [updBalance, List.mem_map] at hp
  obtain ⟨q, hq, rfl⟩ := hp
  by_cases h : (q.1 == u) = true
  · simp only [h, if_true]
    exact hf q.2 (hbs q hq)
  · simp only [h, Bool.false_eq_true, if_false]
    exact hbs q hq

theorem nonneg_updBalance_sub (bs : List (UserId × JSNum)) (u : UserId)
    (a b : ℚ)
    (hbs : ∀ p ∈ bs, (p.2 : JSNum).nonneg = true)
    (huniq : ∀ p ∈ bs, ∀ q ∈ bs, p.1 = q.1 → p.2 = q.2)
    (hlook : blookup bs u = some (JSNum.num b))
    (hab : a ≤ b) :
    ∀ p ∈ updBalance bs u (fun v => JSNum.sub v (JSNum.num a)),
      p.2.nonneg = true := by
  intro p hp
  simp only [updBalance, List.mem_map] at hp
  obtain ⟨q, hq, rfl⟩ := hp
  by_cases h : (q.1 == u) = true
  · simp only [h, if_true]
    obtain ⟨p0, hp0, hk0, hv0⟩ := blookup_mem bs u (JSNum.num b) hlook
    have hq0 : q.2 = p0.2 := huniq q hq p0 hp0 (by rw [beq_iff_eq] at h; rw [h, hk0])
    rw [hq0, hv0, JSNum.sub_num]
    simp only [JSNum.nonneg, decide_eq_true_eq]
    exact sub_nonneg.mpr hab
  · simp only [h, Bool.false_eq_true, if_false]
    exact hbs q hq

theorem below_updBalance (bs : List (UserId × JSNum)) (u : UserId)
    (f : JSNum → JSNum) (n : UserId)
    (hbs : ∀ p ∈ bs, p.1 < n) :
    ∀ p ∈ updBalance bs u f, p.1 < n := by
  intro p hp
  simp only [updBalance, List.mem_map] at hp
  obtain ⟨q, hq, rfl⟩ := hp
  by_cases h : (q.1 == u) = true
  · simp only [h, if_true]
    exact hbs q hq
  · simp only [h, Bool.false_eq_true, if_false]
    exact hbs q hq

theorem uniq_updBalance (bs : List (UserId × JSNum)) (u : UserId)
    (f : JSNum → JSNum)
    (huniq : ∀ p ∈ bs, ∀ q ∈ bs, p.1 = q.1 → p.2 = q.2) :
    ∀ p ∈ updBalance bs u f, ∀ q ∈ updBalance bs u f, p.1 = q.1 → p.2 = q.2 := by
  intro p hp q hq hk
  simp only [updBalance, List.mem_map] at hp hq
  obtain ⟨p0, hp0, rfl⟩ := hp
  obtain ⟨q0, hq0, rfl⟩ := hq
  by_cases h1 : p0.1 = u <;> by_cases h2 : q0.1 = u
  · have b1 : (p0.1 == u) = true := beq_iff_eq.mpr h1
    have b2 : (q0.1 == u) = true := beq_iff_eq.mpr h2
    simp only [b1, b2, if_true] at hk ⊢
    exact congrArg f (huniq p0 hp0 q0 hq0 hk)
  · have b1 : (p0.1 == u) = true := beq_iff_eq.mpr h1
    have b2 : (q0.1 == u) = false := beq_eq_false_iff_ne.mpr h2
    simp only [b1, b2, if_true, Bool.false_eq_true, if_false] at hk ⊢
    exact absurd (hk.symm.trans h1) h2
  · have b1 : (p0.1 == u) = false := beq_eq_false_iff_ne.mpr h1
    have b2 : (q0.1 == u) = true := beq_iff_eq.mpr h2
    simp only [b1, b2, if_true, Bool.false_eq_true, if_false] at hk ⊢
    exact absurd (hk.trans h2) h1
  · have b1 : (p0.1 == u) = false := beq_eq_false_iff_ne.mpr h1
    have b2 : (q0.1 == u) = false := beq_eq_false_iff_ne.mpr h2
    simp only [b1, b2, Bool.false_eq_true, if_false] at hk ⊢
    exact huniq p0 hp0 q0 hq0 hk

theorem registerUser_inv (s : DBState) (f e m : String) (h : BalInv s) :
    BalInv (registerUser s f e m).2 := by
  unfold registerUser
  split
  · exact h
  · refine ⟨?_, ?_, ?_⟩
    · intro p hp
      rcases List.mem_append.mp hp with h1 | h2
      · exact h.nonneg p h1
      · rw [List.mem_singleton.mp h2]
        simp [JSNum.nonneg]
    · intro p hp
      rcases List.mem_append.mp hp with h1 | h2
      · exact Nat.lt_succ_of_lt (h.below p h1)
      · rw [List.mem_singleton.mp h2]
        exact Nat.lt_succ_self _
    · intro p hp q hq hk
      rcases List.mem_append.mp hp with h1 | h2 <;>
        rcases List.mem_append.mp hq with g1 | g2
      · exact h.uniq p h1 q g1 hk
      · exfalso
        rw [List.mem_singleton.mp g2] at hk
        exact absurd (hk ▸ h.below p h1) (lt_irrefl _)
      · exfalso
        rw [List.mem_singleton.mp h2] at hk
        exact absurd (hk ▸ h.below q g1) (lt_irrefl _)
      · rw [List.mem_singleton.mp h2, List.mem_singleton.mp g2]

theorem addFunds_inv (s : DBState) (u : UserId) (a : ℚ) (h : BalInv s) :
    BalInv (addFunds s u (JSNum.num a)).2 := by
  unfold addFunds
  by_cases hg : (u == 0 || JSNum.leb (JSNum.num a) (JSNum.num 0)) = true
  · simp only [hg, if_true]
    exact h
  · rw [Bool.not_eq_true] at hg
    simp only [hg, Bool.false_eq_true, if_false]
    have ha : 0 ≤ a := by
      simp only [Bool.or_eq_false_iff, JSNum.leb, decide_eq_false_iff_not] at hg
      exact le_of_lt (lt_of_not_le hg.2)
    cases hnb : blookup (updBalance s.balances u
        (fun b => JSNum.add b (JSNum.num a))) u with
    | some newBal =>
        simp only [hnb]
        exact ⟨nonneg_updBalance s.balances u (fun b => JSNum.add b (JSNum.num a))
            h.nonneg (nonneg_add_amount a ha),
          below_updBalance s.balances u (fun b => JSNum.add b (JSNum.num a))
            s.nextUserId h.below,
          uniq_updBalance s.balances u (fun b => JSNum.add b (JSNum.num a)) h.uniq⟩
    | none =>
        simp only [hnb]
        by_cases hex : userExists s u = true
        · simp only [hex, if_true]
          exact ⟨h.nonneg, h.below, h.uniq⟩
        · rw [Bool.not_eq_true] at hex
          simp only [hex, Bool.false_eq_true, if_false]
          exact h

theorem payBill_inv (s : DBState) (u : UserId) (m : String) (a : JSNum)
    (d : String) (h : BalInv s) : BalInv (payBill s u m a d).2 := by
  unfold payBill
  split
  · exact h
  · split
    · exact h
    · split
      · exact h
      · exact ⟨h.nonneg, h.below, h.uniq⟩

theorem sendMoney_inv (s : DBState) (u : UserId) (rid : String) (a : ℚ)
    (h : BalInv s) : BalInv (sendMoney s u rid (JSNum.num a)).2 := by
  unfold sendMoney
  by_cases hg : ((u == 0 || rid == "") || JSNum.leb (JSNum.num a) (JSNum.num 0)) = true
  · simp only [hg, if_true]
    exact h
  · rw [Bool.not_eq_true] at hg
    simp only [hg, Bool.false_eq_true, if_false]
    have ha : 0 ≤ a := by
      simp only [Bool.or_eq_false_iff, JSNum.leb, decide_eq_false_iff_not] at hg
      exact le_of_lt (lt_of_not_le hg.2)
    cases hrec : findRecipient s rid with
    | none =>
        simp only [hrec]
        exact h
    | some recip =>
        simp only [hrec]
        by_cases hself : (u == recip.user_id) = true
        · simp only [hself, if_true]
          exact h
        · rw [Bool.not_eq_true] at hself
          simp only [hself, Bool.false_eq_true, if_false]
          cases hbal : lookupBalance s u with
          | none =>
              simp only [hbal]
              exact h
          | some bal =>
              simp only [hbal]
              by_cases hltb : JSNum.ltb bal (JSNum.num a) = true
              · simp only [hltb, if_true]
                exact h
              · rw [Bool.not_eq_true] at hltb
                simp only [hltb, Bool.false_eq_true, if_false]
                have hbal' : blookup s.balances u = some bal := hbal
                have hgood : ∃ b : ℚ, bal = JSNum.num b ∧ a ≤ b := by
                  obtain ⟨p0, hp0, hk0, hv0⟩ := blookup_mem _ _ _ hbal'
                  have hnn := h.nonneg p0 hp0
                  rw [hv0] at hnn
                  cases bal with
                  | nan => simp [JSNum.nonneg] at hnn
                  | num b =>
                      refine ⟨b, rfl, ?_⟩
                      simp only [JSNum.ltb, decide_eq_false_iff_not] at hltb
                      exact le_of_not_lt hltb
                obtain ⟨b, hbeq, hab⟩ := hgood
                rw [hbeq] at hbal'
                have hsubOK : ∀ p ∈ updBalance s.balances u
                    (fun x => JSNum.sub x (JSNum.num a)), p.2.nonneg = true :=
                  nonneg_updBalance_sub s.balances u a b h.nonneg h.uniq hbal' hab
                cases hsend : s.users.find? (fun w => w.user_id == u) with
                | none =>
                    simp only [hsend]
                    exact h
                | some sender =>
                    simp only [hsend]
                    cases hnb : blookup (updBalance (updBalance s.balances u
                        (fun x => JSNum.sub x (JSNum.num a))) recip.user_id
                        (fun x => JSNum.add x (JSNum.num a))) u with
                    | some nb =>
                        simp only [hnb]
                        exact ⟨nonneg_updBalance
                            (updBalance s.balances u (fun b => JSNum.sub b (JSNum.num a)))
                            recip.user_id (fun b => JSNum.add b (JSNum.num a))
                            hsubOK (nonneg_add_amount a ha),
                          below_updBalance
                            (updBalance s.balances u (fun b => JSNum.sub b (JSNum.num a)))
                            recip.user_id (fun b => JSNum.add b (JSNum.num a)) s.nextUserId
                            (below_updBalance s.balances u
                              (fun b => JSNum.sub b (JSNum.num a)) s.nextUserId h.below),
                          uniq_updBalance
                            (updBalance s.balances u (fun b => JSNum.sub b (JSNum.num a)))
                            recip.user_id (fun b => JSNum.add b (JSNum.num a))
                            (uniq_updBalance s.balances u
                              (fun b => JSNum.sub b (JSNum.num a)) h.uniq)⟩
                    | none =>
                        simp only [hnb]
                        exact ⟨nonneg_updBalance
                            (updBalance s.balances u (fun b => JSNum.sub b (JSNum.num a)))
                            recip.user_id (fun b => JSNum.add b (JSNum.num a))
                            hsubOK (nonneg_add_amount a ha),
                          below_updBalance
                            (updBalance s.balances u (fun b => JSNum.sub b (JSNum.num a)))
                            recip.user_id (fun b => JSNum.add b (JSNum.num a)) s.nextUserId
                            (below_updBalance s.balances u
                              (fun b => JSNum.sub b (JSNum.num a)) s.nextUserId h.below),
                          uniq_updBalance
                            (updBalance s.balances u (fun b => JSNum.sub b (JSNum.num a)))
                            recip.user_id (fun b => JSNum.add b (JSNum.num a))
                            (uniq_updBalance s.balances u
                              (fun b => JSNum.sub b (JSNum.num a)) h.uniq)⟩

theorem applyOp_inv (s : DBState) (op : Op) (hwf : Op.wellFormed op = true)
    (h : BalInv s) : BalInv (applyOp s op) := by
  cases op with
  | register f e m => exact registerUser_inv s f e m h
  | deposit u a =>
      cases a with
      | nan => exact absurd hwf (by simp [Op.wellFormed, JSNum.isReal])
      | num q => exact addFunds_inv s u q h
  | bill u m a d => exact payBill_inv s u m a d h
  | transfer u r a =>
      cases a with
      | nan => exact absurd hwf (by simp [Op.wellFormed, JSNum.isReal])
      | num q => exact sendMoney_inv s u r q h

theorem step_inv (s : DBState) (op : Op) (hwf : Op.wellFormed op = true)
    (h : BalInv s) : BalInv (step s op) := by
  have h1 := applyOp_inv s op hwf h
  exact ⟨h1.nonneg, h1.below, h1.uniq⟩

theorem foldl_inv (ops : List Op) :
    (∀ op ∈ ops, Op.wellFormed op = true) →
    ∀ s, BalInv s → BalInv (ops.foldl step s) := by
  induction ops with
  | nil => exact fun _ s h => h
  | cons op ops ih =>
      intro hwf s h
      exact ih (fun o ho => hwf o (List.mem_cons_of_mem op ho)) _
        (step_inv s op (hwf op (List.mem_cons_self op ops)) h)

theorem initState_inv : BalInv initState :=
  ⟨fun p hp => absurd hp (List.not_mem_nil p),
   fun p hp => absurd hp (List.not_mem_nil p),
   fun p hp => absurd hp (List.not_mem_nil p)⟩

/-- Claim C3, counterexample: a malformed-amount deposit is itself a committed
operation — the handler accepts it — and it drives the stored balance to
`NaN`, which is not a non-negative value.  So over all committed operation
sequences the non-negativity invariant fails. -/
theorem run_balance_nan :
    lookupBalance (run [Op.register "Alice" "a@x.com" "111",
      Op.deposit 1 (JSNum.num 100), Op.deposit 1 JSNum.nan]) 1 =
      some JSNum.nan ∧
    JSNum.nan.nonneg = false := by
  decide

/-- Claim C3 (amended): after any sequence of committed operations whose
amounts parsed to real numbers — registrations (balance starts at 0),
deposits, bill payments and transfers — every stored balance is a real,
non-negative value.  Requests whose amount parses to `NaN` are excluded: the
handlers accept them and they corrupt the balance (see `run_balance_nan`). -/
theorem run_balance_nonneg (ops : List Op)
    (hwf : ∀ op ∈ ops, Op.wellFormed op = true) (u : UserId) (b : JSNum)
    (h : lookupBalance (run ops) u = some b) : b.nonneg = true := by
  obtain ⟨p, hp, hk, hv⟩ := blookup_mem (run ops).balances u b h
  rw [← hv]
  exact (foldl_inv ops hwf initState initState_inv).nonneg p hp

/-- Witness for `run_balance_nonneg` at a concrete operation sequence. -/
theorem run_balance_nonneg_witness :
    lookupBalance (run [Op.register "Alice" "a@x.com" "111",
      Op.deposit 1 (JSNum.num 100), Op.transfer 1 "a@x.com" (JSNum.num 20)]) 1 =
      some (JSNum.num 100) ∧
    (JSNum.num 100).nonneg = true :=
  ⟨by decide,
   run_balance_nonneg [Op.register "Alice" "a@x.com" "111",
     Op.deposit 1 (JSNum.num 100), Op.transfer 1 "a@x.com" (JSNum.num 20)]
     (by decide) 1 (JSNum.num 100) (by decide)⟩

end PaymentPortal
